import Mathlib

/-!
Shallow embedding of `src/auth.py` (role-based authentication for a
dashboard): the `ROLES` registry, the `User` principal, the `usuarios`
table and its CRUD operations, and the two authorization decorators.

The database is modelled as a list of rows in insertion order; `fetchone`
of an unordered SELECT is the first matching row.  Store-touching
operations are state-passing: they return their result together with the
resulting table, so that read-only behaviour is a provable statement.
-/

/-- Display name of a role and permission tokens (a value of the `ROLES`
dictionary in auth.py). -/
structure RoleInfo where
  name : String
  permissions : List String
deriving DecidableEq

/-- The `ROLES` dictionary of auth.py, in insertion order. -/
def ROLES : List (String × RoleInfo) :=
  [("viewer", ⟨"Visualizador", ["view"]⟩),
   ("editor_v2", ⟨"Editor Simple", ["view", "edit"]⟩),
   ("editor", ⟨"Editor Full", ["view", "edit", "delete"]⟩),
   ("admin", ⟨"Administrador", ["view", "edit", "delete", "manage_users", "view_audit"]⟩)]

/-- Python dictionary lookup `ROLES.get(r)`; `r in ROLES` is `isSome`. -/
def rolesGet (r : String) : Option RoleInfo :=
  (ROLES.find? (fun kv => kv.1 == r)).map Prod.snd

/-- The `User` principal class of auth.py: exactly the four fields
assigned in `User.__init__` (no password hash). -/
structure User where
  id : Nat
  username : String
  email : String
  role : String
deriving DecidableEq

/-- `User.has_permission`: membership of the permission in the
permissions list of `ROLES.get(self.role)`, defaulting to the empty
list when the role is absent — never throws. -/
def User.has_permission (u : User) (permission : String) : Bool :=
  (((rolesGet u.role).map RoleInfo.permissions).getD []).contains permission

/-- `User.get_role_name`: display name of the role, or the sentinel
`"Desconocido"` for a role outside the registry. -/
def User.get_role_name (u : User) : String :=
  (((rolesGet u.role).map RoleInfo.name).getD "Desconocido")

/-- A row of the `usuarios` table (the columns named in the SQL of auth.py). -/
structure UserRecord where
  id : Nat
  username : String
  email : String
  password_hash : String
  role : String
  activo : Bool
  created_at : Nat
  last_login : Option Nat
deriving DecidableEq

/-- The `usuarios` table, rows in insertion order. -/
abbrev Store := List UserRecord

/-- Modelled from the spec: werkzeug `generate_password_hash` (the
hashing library is outside this repository).  An injective tagging of
the password, so that verification succeeds exactly on the hashed
password, matching the no-false-positive property of the spec. -/
def generate_password_hash (p : String) : String :=
  "pbkdf2:" ++ p

/-- Modelled from the spec: werkzeug `check_password_hash` —
verification succeeds iff the stored hash was generated from the
supplied password. -/
def check_password_hash (h : String) (p : String) : Bool :=
  h == generate_password_hash p

/-- `load_user` (the `@login_manager.user_loader` hook):
`SELECT id, username, email, role FROM usuarios WHERE id = %s` — note
there is no filter on `activo`.  Returns a principal for the first
matching row. -/
def load_user (s : Store) (user_id : Nat) : Option User :=
  (s.find? (fun r => r.id == user_id)).map
    (fun r => User.mk r.id r.username r.email r.role)

/-- The row predicate of the authentication query:
`(username = %s OR email = %s) AND activo = true`. -/
def authMatch (ident : String) (r : UserRecord) : Bool :=
  (r.username == ident || r.email == ident) && r.activo

/-- `authenticate_user`: fetches the first row matching `authMatch`,
then checks the password against the stored hash of that row.  Read-only:
the table comes back unchanged. -/
def authenticate_user (s : Store) (username_or_email password : String) :
    Option User × Store :=
  match s.find? (authMatch username_or_email) with
  | some r =>
      if check_password_hash r.password_hash password then
        (some (User.mk r.id r.username r.email r.role), s)
      else (none, s)
  | none => (none, s)

/-- Modelled from the spec: the id handed out by
`INSERT ... RETURNING id` (the serial column lives in the database
schema, outside this repository); ids are unique and stable. -/
def nextId (s : Store) : Nat :=
  (s.foldr (fun r acc => max r.id acc) 0) + 1

/-- Modelled from the spec: the `psycopg2.IntegrityError` condition of
the INSERT — independent uniqueness constraints over `username` and
over `email` in the database schema, outside this repository. -/
def duplicateKey (s : Store) (username email : String) : Bool :=
  s.any (fun r => r.username == username) || s.any (fun r => r.email == email)

/-- `create_user`: rejects a role outside `ROLES` with a ValueError
listing the valid role ids, hashes the password, inserts an active row;
an IntegrityError is rolled back and re-raised as a ValueError. -/
def create_user (s : Store) (now : Nat) (username email password role : String) :
    Except String Nat × Store :=
  if (rolesGet role).isNone then
    (Except.error ("Rol inválido. Debe ser uno de: " ++
      String.intercalate ", " (ROLES.map Prod.fst)), s)
  else if duplicateKey s username email then
    (Except.error "El username o email ya existe", s)
  else
    (Except.ok (nextId s),
     s ++ [UserRecord.mk (nextId s) username email
       (generate_password_hash password) role true now none])

/-- Row update used by `update_user_role`: replace the `role` column. -/
def UserRecord.withRole (r : UserRecord) (role : String) : UserRecord :=
  UserRecord.mk r.id r.username r.email r.password_hash role r.activo
    r.created_at r.last_login

/-- `update_user_role`: ValueError (listing the valid role ids) for a
role outside `ROLES`, before any database access; otherwise
`UPDATE usuarios SET role = %s WHERE id = %s`. -/
def update_user_role (s : Store) (user_id : Nat) (new_role : String) :
    Except String Unit × Store :=
  if (rolesGet new_role).isNone then
    (Except.error ("Rol inválido. Debe ser uno de: " ++
      String.intercalate ", " (ROLES.map Prod.fst)), s)
  else
    (Except.ok (),
     s.map (fun r => if r.id == user_id then r.withRole new_role else r))

/-- Row update used by `update_last_login`: set the `last_login` column. -/
def UserRecord.withLastLogin (r : UserRecord) (t : Option Nat) : UserRecord :=
  UserRecord.mk r.id r.username r.email r.password_hash r.role r.activo
    r.created_at t

/-- `update_last_login`:
`UPDATE usuarios SET last_login = CURRENT_TIMESTAMP WHERE id = %s` —
the one operation that writes `last_login`, called separately by the
login flow after a successful authentication. -/
def update_last_login (s : Store) (user_id : Nat) (now : Nat) : Store :=
  s.map (fun r => if r.id == user_id then r.withLastLogin (some now) else r)

/-- Outcome of a guarded handler: the return value of the wrapped operation,
a flash-and-redirect to `index`, or an uncaught Python `KeyError`. -/
inductive GuardResult (α : Type) where
  | invoked (val : α)
  | redirected (msg : String)
  | keyError (key : String)
deriving DecidableEq

/-- `permission_required(permission)` applied to an authenticated
principal (`@login_required` has already resolved `current_user`). -/
def permission_required (permission : String) (current_user : User)
    {α : Type} (f : Unit → α) : GuardResult α :=
  if !(current_user.has_permission permission) then
    GuardResult.redirected
      ("⛔ No tienes permiso para realizar esta acción. Se requiere: " ++ permission)
  else GuardResult.invoked (f ())

/-- `role_required(role)` applied to an authenticated principal.  The
denial message indexes `ROLES[role]["name"]` directly, so a role
outside the registry raises KeyError on the denial path. -/
def role_required (role : String) (current_user : User)
    {α : Type} (f : Unit → α) : GuardResult α :=
  if current_user.role != role && current_user.role != "admin" then
    match rolesGet role with
    | some info => GuardResult.redirected ("⛔ Se requiere rol de " ++ info.name)
    | none => GuardResult.keyError role
  else GuardResult.invoked (f ())

/-- The permission set the registry assigns to a role id (empty for an
unknown role). -/
def permissionsOf (role : String) : List String :=
  ((rolesGet role).map RoleInfo.permissions).getD []

/-- Concrete principals used in witnesses and counterexamples. -/
def viewerUser : User :=
  User.mk 1 "vera" "vera@x.com" "viewer"

def editorUser : User :=
  User.mk 2 "ed" "ed@x.com" "editor"

def adminUser : User :=
  User.mk 3 "root" "root@x.com" "admin"

/-- A list of length at most one has all members equal. -/
theorem length_le_one_mem_eq {α : Type} {l : List α} (h : l.length ≤ 1)
    {a b : α} (ha : a ∈ l) (hb : b ∈ l) : a = b := by
  cases l with
  | nil => cases ha
  | cons x xs =>
      have hx : xs = [] := by
        simp only [List.length_cons] at h
        exact List.eq_nil_of_length_eq_zero (by omega)
      subst hx
      simp only [List.mem_singleton] at ha hb
      rw [ha, hb]

/-- C4: a role outside the registry yields an empty effective permission
set — `has_permission` is false for every token and never throws — and
`get_role_name` returns the sentinel "Desconocido" instead of raising. -/
theorem C4_unknown_role_fail_closed (r : String) (hr : rolesGet r = none)
    (id : Nat) (un em q : String) :
    User.has_permission (User.mk id un em r) q = false ∧
    User.get_role_name (User.mk id un em r) = "Desconocido" ∧
    permissionsOf r = [] := by
  refine ⟨?_, ?_, ?_⟩ <;>
    simp [User.has_permission, User.get_role_name, permissionsOf, hr]

theorem C4_witness :
    rolesGet "ghost" = none ∧
    (User.has_permission (User.mk 9 "g" "g@x.com" "ghost") "view" = false ∧
     User.get_role_name (User.mk 9 "g" "g@x.com" "ghost") = "Desconocido" ∧
     permissionsOf "ghost" = []) :=
  ⟨by decide, C4_unknown_role_fail_closed "ghost" (by decide) 9 "g" "g@x.com" "view"⟩

/-- C5: the registry holds exactly the four built-in roles viewer,
editor_v2, editor, admin; their permission sets are non-empty and form
a strict superset chain viewer ⊂ editor_v2 ⊂ editor ⊂ admin. -/
theorem C5_registry_chain :
    ROLES.map Prod.fst = ["viewer", "editor_v2", "editor", "admin"] ∧
    (permissionsOf "viewer" ⊆ permissionsOf "editor_v2" ∧
      ¬ permissionsOf "editor_v2" ⊆ permissionsOf "viewer") ∧
    (permissionsOf "editor_v2" ⊆ permissionsOf "editor" ∧
      ¬ permissionsOf "editor" ⊆ permissionsOf "editor_v2") ∧
    (permissionsOf "editor" ⊆ permissionsOf "admin" ∧
      ¬ permissionsOf "admin" ⊆ permissionsOf "editor") ∧
    (∀ kv ∈ ROLES, kv.2.permissions ≠ []) := by
  refine ⟨by decide, ⟨?_, by decide⟩, ⟨?_, by decide⟩, ⟨?_, by decide⟩, by decide⟩ <;>
    · intro x hx
      fin_cases hx <;> decide

/-- C10: for a role outside the registry, the denial branch of
`role_required` raises an uncaught KeyError while building the message
(direct `ROLES[role]` indexing) instead of redirecting; a principal
whose role is admin (or equal to the argument) is invoked without
evaluating `ROLES[role]`. -/
theorem C10_unknown_role_keyerror (r : String) (hr : rolesGet r = none)
    (p : User) {α : Type} (f : Unit → α) :
    (p.role ≠ r → p.role ≠ "admin" →
      role_required r p f = GuardResult.keyError r) ∧
    ((p.role = r ∨ p.role = "admin") →
      role_required r p f = GuardResult.invoked (f ())) := by
  constructor
  · intro h1 h2
    simp [role_required, hr, h1, h2]
  · intro h
    rcases h with h | h <;> simp [role_required, h]

theorem C10_witness :
    role_required "ghost" viewerUser (fun _ => (0 : Nat)) = GuardResult.keyError "ghost" ∧
    role_required "ghost" adminUser (fun _ => (0 : Nat)) = GuardResult.invoked 0 :=
  ⟨(C10_unknown_role_keyerror "ghost" (by decide) viewerUser (fun _ => (0 : Nat))).1
      (by decide) (by decide),
   (C10_unknown_role_keyerror "ghost" (by decide) adminUser (fun _ => (0 : Nat))).2
      (Or.inr (by decide))⟩

/-- C2 counterexample: with the unregistered role id "ghost" and a
plain viewer principal, the wrapper neither invokes nor redirects — it
raises KeyError — so the claim that every denial redirects with the
display name of the required role fails. -/
theorem C2_counterexample :
    rolesGet "ghost" = none ∧
    role_required "ghost" viewerUser (fun _ => (0 : Nat)) = GuardResult.keyError "ghost" ∧
    ∀ msg, role_required "ghost" viewerUser (fun _ => (0 : Nat)) ≠ GuardResult.redirected msg := by
  refine ⟨by decide, by decide, ?_⟩
  intro msg h
  have h0 : role_required "ghost" viewerUser (fun _ => (0 : Nat)) =
      GuardResult.keyError "ghost" := by decide
  rw [h0] at h
  cases h

/-- C2 (amended): for every principal the operation is invoked iff its
role equals the argument or is admin; when the argument is a role
present in the registry, every denial redirects with a message citing
the display name of that role (for an unregistered argument the denial
path raises KeyError instead). -/
theorem C2_role_gate (r : String) (info : RoleInfo) (hreg : rolesGet r = some info)
    (p : User) {α : Type} (f : Unit → α) :
    (role_required r p f = GuardResult.invoked (f ()) ↔
      (p.role = r ∨ p.role = "admin")) ∧
    (¬ (p.role = r ∨ p.role = "admin") →
      role_required r p f =
        GuardResult.redirected ("⛔ Se requiere rol de " ++ info.name)) := by
  by_cases h1 : p.role = r
  · constructor
    · simp [role_required, h1]
    · intro hc; exact absurd (Or.inl h1) hc
  · by_cases h2 : p.role = "admin"
    · constructor
      · simp [role_required, h2]
      · intro hc; exact absurd (Or.inr h2) hc
    · constructor
      · simp [role_required, hreg, h1, h2]
      · intro _; simp [role_required, hreg, h1, h2]

theorem C2_witness :
    (role_required "editor" viewerUser (fun _ => (42 : Nat)) = GuardResult.invoked 42 ↔
      (viewerUser.role = "editor" ∨ viewerUser.role = "admin")) ∧
    (¬ (viewerUser.role = "editor" ∨ viewerUser.role = "admin") →
      role_required "editor" viewerUser (fun _ => (42 : Nat)) =
        GuardResult.redirected ("⛔ Se requiere rol de " ++ "Editor Full")) :=
  C2_role_gate "editor" (RoleInfo.mk "Editor Full" ["view", "edit", "delete"])
    (by decide) viewerUser (fun _ => (42 : Nat))

/-- C3: `permission_required` invokes the wrapped operation and passes
its value through iff the token is in the permission set of the role of
the principal; otherwise the operation is not invoked and the caller is
redirected with a denial message carrying the missing token; in
particular a viewer is denied "delete" and an editor is allowed. -/
theorem C3_permission_gate (q : String) (p : User) {α : Type} (f : Unit → α) :
    (permission_required q p f = GuardResult.invoked (f ()) ↔
      q ∈ permissionsOf p.role) ∧
    (q ∉ permissionsOf p.role →
      permission_required q p f = GuardResult.redirected
        ("⛔ No tienes permiso para realizar esta acción. Se requiere: " ++ q)) ∧
    permission_required "delete" viewerUser (fun _ => (7 : Nat)) =
      GuardResult.redirected
        ("⛔ No tienes permiso para realizar esta acción. Se requiere: " ++ "delete") ∧
    permission_required "delete" editorUser (fun _ => (7 : Nat)) =
      GuardResult.invoked 7 := by
  have hmem : p.has_permission q = true ↔ q ∈ permissionsOf p.role := by
    simp [User.has_permission, permissionsOf]
  refine ⟨?_, ?_, by decide, by decide⟩
  · by_cases hq : p.has_permission q = true
    · simp [permission_required, hq, hmem.mp hq]
    · have hq0 : p.has_permission q = false := Bool.eq_false_iff.mpr hq
      have hred : permission_required q p f = GuardResult.redirected
          ("⛔ No tienes permiso para realizar esta acción. Se requiere: " ++ q) := by
        simp [permission_required, hq0]
      rw [hred]
      constructor
      · intro hinv; simp at hinv
      · intro hc; exact absurd (hmem.mpr hc) hq
  · intro hnot
    have hq : p.has_permission q = false :=
      Bool.eq_false_iff.mpr (fun hc => hnot (hmem.mp hc))
    simp [permission_required, hq]

theorem C3_witness :
    permission_required "manage_users" viewerUser (fun _ => (5 : Nat)) =
      GuardResult.redirected
        ("⛔ No tienes permiso para realizar esta acción. Se requiere: " ++ "manage_users") :=
  (C3_permission_gate "manage_users" viewerUser (fun _ => (5 : Nat))).2.1 (by decide)

/-- Two active rows that both match the identifier "bob@x.com": row 1
by email, row 2 by username.  The state respects the per-column
uniqueness constraints (all usernames distinct, all emails distinct). -/
def ambiguousStore : Store :=
  [UserRecord.mk 1 "alice" "bob@x.com" (generate_password_hash "pw1") "viewer" true 0 none,
   UserRecord.mk 2 "bob@x.com" "c@x.com" (generate_password_hash "pw2") "viewer" true 0 none]

/-- A store with a single active row. -/
def singleStore : Store :=
  [UserRecord.mk 1 "alice" "alice@x.com" (generate_password_hash "pw1") "viewer" true 0 none]

/-- C1 counterexample: two active records match the identifier, yet
`authenticate_user` still returns a principal — it checks the password
against the first fetched row rather than failing on an ambiguous
match, contradicting the claim that zero or multiple active matches
yield None. -/
theorem C1_counterexample :
    (ambiguousStore.filter (authMatch "bob@x.com")).length = 2 ∧
    (authenticate_user ambiguousStore "bob@x.com" "pw1").1 =
      some (User.mk 1 "alice" "bob@x.com" "viewer") := by
  constructor <;> rfl

/-- C1 (amended): when at most one active record matches the
identifier, authentication succeeds iff an active record matches it by
username or email and the password verifies against the stored hash of
that record; with several active matches the code does not fail but
checks the first fetched row (see the counterexample). -/
theorem C1_at_most_one_match (s : Store) (ident pw : String)
    (h : (s.filter (authMatch ident)).length ≤ 1) :
    ((authenticate_user s ident pw).1.isSome = true ↔
      ∃ r ∈ s, authMatch ident r = true ∧
        check_password_hash r.password_hash pw = true) := by
  constructor
  · intro hs
    cases hfind : s.find? (authMatch ident) with
    | none => simp [authenticate_user, hfind] at hs
    | some r =>
        by_cases hc : check_password_hash r.password_hash pw = true
        · exact ⟨r, List.mem_of_find?_eq_some hfind, List.find?_some hfind, hc⟩
        · simp [authenticate_user, hfind, hc] at hs
  · rintro ⟨r, hr, hm, hc⟩
    have hsome : (s.find? (authMatch ident)).isSome :=
      List.find?_isSome.mpr ⟨r, hr, hm⟩
    obtain ⟨r0, hfind⟩ := Option.isSome_iff_exists.mp hsome
    have heq : r = r0 :=
      length_le_one_mem_eq h
        (List.mem_filter.mpr ⟨hr, hm⟩)
        (List.mem_filter.mpr ⟨List.mem_of_find?_eq_some hfind, List.find?_some hfind⟩)
    subst heq
    simp [authenticate_user, hfind, hc]

theorem C1_witness :
    (singleStore.filter (authMatch "alice")).length ≤ 1 ∧
    ((authenticate_user singleStore "alice" "pw1").1.isSome = true ↔
      ∃ r ∈ singleStore, authMatch "alice" r = true ∧
        check_password_hash r.password_hash "pw1" = true) :=
  ⟨by decide, C1_at_most_one_match singleStore "alice" "pw1" (by decide)⟩

/-- The password tagging is injective. -/
theorem generate_password_hash_injective {p q : String}
    (h : generate_password_hash p = generate_password_hash q) : p = q := by
  have hd := congrArg String.data h
  simp only [generate_password_hash, String.data_append] at hd
  exact String.ext (List.append_cancel_left hd)

/-- Verification against a generated hash succeeds exactly on the
hashed password. -/
theorem check_gen_iff (p q : String) :
    check_password_hash (generate_password_hash p) q = true ↔ q = p := by
  constructor
  · intro h
    exact (generate_password_hash_injective (beq_iff_eq.mp h)).symm
  · intro h
    subst h
    exact beq_self_eq_true (generate_password_hash q)

/-- C6: creating a user in a store where nothing matches the new
username or email, then authenticating with either the username or the
email and the same password, yields a principal with that username,
email and role; any other password is rejected. -/
theorem C6_create_then_authenticate (s : Store) (now : Nat) (u e pw r : String)
    (hrole : (rolesGet r).isSome = true)
    (hfresh : ∀ rec ∈ s, rec.username ≠ u ∧ rec.email ≠ u ∧
      rec.username ≠ e ∧ rec.email ≠ e) :
    ∃ uid s2,
      create_user s now u e pw r = (Except.ok uid, s2) ∧
      (∃ p1, (authenticate_user s2 u pw).1 = some p1 ∧
        p1.username = u ∧ p1.email = e ∧ p1.role = r) ∧
      (∃ p2, (authenticate_user s2 e pw).1 = some p2 ∧
        p2.username = u ∧ p2.email = e ∧ p2.role = r) ∧
      ∀ pw2, pw2 ≠ pw → (authenticate_user s2 u pw2).1 = none := by
  obtain ⟨info, hinfo⟩ := Option.isSome_iff_exists.mp hrole
  have hnotdup : duplicateKey s u e = false := by
    simp only [duplicateKey, Bool.or_eq_false_iff, List.any_eq_false]
    constructor
    · intro rec hrec
      simp [(hfresh rec hrec).1]
    · intro rec hrec
      simp [(hfresh rec hrec).2.2.2]
  have hcreate : create_user s now u e pw r =
      (Except.ok (nextId s),
       s ++ [UserRecord.mk (nextId s) u e (generate_password_hash pw) r true now none]) := by
    simp [create_user, hinfo, hnotdup]
  refine ⟨nextId s,
    s ++ [UserRecord.mk (nextId s) u e (generate_password_hash pw) r true now none],
    hcreate, ?_, ?_, ?_⟩
  case _ =>
    have hnone : s.find? (authMatch u) = none := by
      apply List.find?_eq_none.mpr
      intro rec hrec
      simp [authMatch, (hfresh rec hrec).1, (hfresh rec hrec).2.1]
    have hfind : (s ++ [UserRecord.mk (nextId s) u e
        (generate_password_hash pw) r true now none]).find? (authMatch u) =
        some (UserRecord.mk (nextId s) u e (generate_password_hash pw) r true now none) := by
      rw [List.find?_append, hnone]
      simp [authMatch]
    refine ⟨User.mk (nextId s) u e r, ?_, rfl, rfl, rfl⟩
    simp [authenticate_user, hfind, (check_gen_iff pw pw).mpr rfl]
  case _ =>
    have hnone : s.find? (authMatch e) = none := by
      apply List.find?_eq_none.mpr
      intro rec hrec
      simp [authMatch, (hfresh rec hrec).2.2.1, (hfresh rec hrec).2.2.2]
    have hfind : (s ++ [UserRecord.mk (nextId s) u e
        (generate_password_hash pw) r true now none]).find? (authMatch e) =
        some (UserRecord.mk (nextId s) u e (generate_password_hash pw) r true now none) := by
      rw [List.find?_append, hnone]
      simp [authMatch]
    refine ⟨User.mk (nextId s) u e r, ?_, rfl, rfl, rfl⟩
    simp [authenticate_user, hfind, (check_gen_iff pw pw).mpr rfl]
  case _ =>
    intro pw2 hpw2
    have hnone : s.find? (authMatch u) = none := by
      apply List.find?_eq_none.mpr
      intro rec hrec
      simp [authMatch, (hfresh rec hrec).1, (hfresh rec hrec).2.1]
    have hfind : (s ++ [UserRecord.mk (nextId s) u e
        (generate_password_hash pw) r true now none]).find? (authMatch u) =
        some (UserRecord.mk (nextId s) u e (generate_password_hash pw) r true now none) := by
      rw [List.find?_append, hnone]
      simp [authMatch]
    have hchk : check_password_hash (generate_password_hash pw) pw2 = false :=
      Bool.eq_false_iff.mpr (fun hc => hpw2 ((check_gen_iff pw pw2).mp hc))
    simp [authenticate_user, hfind, hchk]

theorem C6_witness :
    ∃ uid s2,
      create_user [] 0 "alice" "alice@x.com" "pw1" "viewer" = (Except.ok uid, s2) ∧
      (∃ p1, (authenticate_user s2 "alice" "pw1").1 = some p1 ∧
        p1.username = "alice" ∧ p1.email = "alice@x.com" ∧ p1.role = "viewer") ∧
      (∃ p2, (authenticate_user s2 "alice@x.com" "pw1").1 = some p2 ∧
        p2.username = "alice" ∧ p2.email = "alice@x.com" ∧ p2.role = "viewer") ∧
      ∀ pw2, pw2 ≠ "pw1" → (authenticate_user s2 "alice" pw2).1 = none :=
  C6_create_then_authenticate [] 0 "alice" "alice@x.com" "pw1" "viewer"
    (by decide) (by simp)

/-- C7: updating a role to an identifier outside the registry raises
the invalid-role ValueError carrying the list of valid role ids and
leaves the store untouched; a registered identifier sets the role of
exactly the rows with the given id and changes nothing else. -/
theorem C7_update_user_role (s : Store) (uid : Nat) (r : String) :
    (rolesGet r = none →
      update_user_role s uid r =
        (Except.error ("Rol inválido. Debe ser uno de: " ++
          String.intercalate ", " (ROLES.map Prod.fst)), s)) ∧
    ((rolesGet r).isSome = true →
      (update_user_role s uid r).1 = Except.ok () ∧
      (update_user_role s uid r).2.length = s.length ∧
      ∀ (i : Nat) (rec : UserRecord), s[i]? = some rec →
        (update_user_role s uid r).2[i]? =
          some (if rec.id = uid then rec.withRole r else rec)) := by
  constructor
  · intro hr
    simp [update_user_role, hr]
  · intro hr
    obtain ⟨info, hinfo⟩ := Option.isSome_iff_exists.mp hr
    have hne : (rolesGet r).isNone = false := by simp [hinfo]
    refine ⟨by simp [update_user_role, hne], by simp [update_user_role, hne], ?_⟩
    intro i rec hrec
    simp only [update_user_role, hne, Bool.false_eq_true, if_false, List.getElem?_map, hrec,
      Option.map_some]
    by_cases hid : rec.id = uid <;> simp [hid]

theorem C7_witness :
    update_user_role singleStore 1 "ghost" =
      (Except.error ("Rol inválido. Debe ser uno de: " ++
        String.intercalate ", " (ROLES.map Prod.fst)), singleStore) ∧
    (update_user_role singleStore 1 "editor").1 = Except.ok () ∧
    (update_user_role singleStore 1 "editor").2.length = singleStore.length :=
  ⟨(C7_update_user_role singleStore 1 "ghost").1 (by decide),
   ((C7_update_user_role singleStore 1 "editor").2 (by decide)).1,
   ((C7_update_user_role singleStore 1 "editor").2 (by decide)).2.1⟩

/-- C8: authentication is read-only — the store comes back unchanged
(in particular `last_login` is untouched; writing it is the separate
`update_last_login` call) — and a returned principal is built from
exactly the id, username, email and role columns of a stored row, with
no password hash field. -/
theorem C8_authenticate_read_only (s : Store) (ident pw : String) :
    (authenticate_user s ident pw).2 = s ∧
    ∀ u, (authenticate_user s ident pw).1 = some u →
      ∃ rec ∈ s, u = User.mk rec.id rec.username rec.email rec.role := by
  constructor
  · cases hfind : s.find? (authMatch ident) with
    | none => simp [authenticate_user, hfind]
    | some r =>
        by_cases hc : check_password_hash r.password_hash pw = true <;>
          simp [authenticate_user, hfind, hc]
  · intro u hu
    cases hfind : s.find? (authMatch ident) with
    | none => simp [authenticate_user, hfind] at hu
    | some r =>
        by_cases hc : check_password_hash r.password_hash pw = true
        · refine ⟨r, List.mem_of_find?_eq_some hfind, ?_⟩
          simp [authenticate_user, hfind, hc] at hu
          exact hu.symm
        · simp [authenticate_user, hfind, hc] at hu

theorem C8_witness :
    (authenticate_user singleStore "alice" "pw1").2 = singleStore ∧
    ∃ rec ∈ singleStore,
      User.mk 1 "alice" "alice@x.com" "viewer" =
        User.mk rec.id rec.username rec.email rec.role :=
  ⟨(C8_authenticate_read_only singleStore "alice" "pw1").1,
   (C8_authenticate_read_only singleStore "alice" "pw1").2
     (User.mk 1 "alice" "alice@x.com" "viewer") (by decide)⟩

/-- A store whose only row is deactivated. -/
def inactiveStore : Store :=
  [UserRecord.mk 1 "bob" "bob@x.com" (generate_password_hash "pw") "editor" false 0 none]

/-- C9: `load_user` resolves a stored id to a full principal carrying
the stored role with no condition on `activo` — a deactivated user
still resolves — whereas `authenticate_user` returns None whenever
every row matching the identifier is inactive. -/
theorem C9_load_user_ignores_activo (s : Store) (uid : Nat) (rec : UserRecord)
    (hfind : s.find? (fun r => r.id == uid) = some rec) :
    load_user s uid = some (User.mk rec.id rec.username rec.email rec.role) ∧
    ∀ ident pw,
      (∀ r ∈ s, (r.username = ident ∨ r.email = ident) → r.activo = false) →
      (authenticate_user s ident pw).1 = none := by
  constructor
  · simp [load_user, hfind]
  · intro ident pw hinact
    have hnone : s.find? (authMatch ident) = none := by
      apply List.find?_eq_none.mpr
      intro r hr
      simp only [authMatch, Bool.and_eq_true, Bool.or_eq_true, beq_iff_eq, not_and]
      intro hm
      simp [hinact r hr hm]
    simp [authenticate_user, hnone]

theorem C9_witness :
    load_user inactiveStore 1 = some (User.mk 1 "bob" "bob@x.com" "editor") ∧
    (authenticate_user inactiveStore "bob" "pw").1 = none := by
  have h := C9_load_user_ignores_activo inactiveStore 1
    (UserRecord.mk 1 "bob" "bob@x.com" (generate_password_hash "pw") "editor" false 0 none)
    (by decide)
  exact ⟨h.1, h.2 "bob" "pw" (by decide)⟩
